import Mathlib

/-!
Formal model of `callprofiler` (src/python/callprofiler/profiler.py): the
profiling decorator, its `sys.setprofile` callback, the internal/external
classifier, and the (native, spec-described) event-to-call-tree engine.

Strings are modelled as Lean `String`; the character-level operations the
Python code performs (`startswith`, `in`, `find`, `lstrip`, `split`) are
defined over `String.toList` so that they are both executable and amenable
to proof.  Environment-dependent values (`os.path.normpath`, `os.sep`,
`_STDLIB_PATHS`) are parameters of the model.
-/

namespace CallProfiler

/-- Python `s.startswith(pre)`. -/
def strStartsWith (s pre : String) : Bool :=
  pre.toList.isPrefixOf s.toList

/-- Python `pat in s` (substring containment, non-empty `pat`). -/
def strContains (s pat : String) : Bool :=
  decide (pat.toList <:+: s.toList)

/-- The characters of `l` after the first occurrence of `pat`
(Python `l[l.find(pat) + len(pat):]` when `find` succeeds, `none` when
`find` returns `-1`). -/
def restAfterList (pat : List Char) : List Char → Option (List Char)
  | [] => if pat.isPrefixOf ([] : List Char) then some [] else none
  | c :: t =>
    if pat.isPrefixOf (c :: t) then some ((c :: t).drop pat.length)
    else restAfterList pat t

/-- String wrapper for `restAfterList`. -/
def strRestAfter (s pat : String) : Option String :=
  (restAfterList pat.toList s.toList).map List.asString

/-- Python `s.lstrip(c)` for a single-character `c`. -/
def strDropLead (c : Char) (s : String) : String :=
  (s.toList.dropWhile (· = c)).asString

/-- Python `s.split(c)[0]` for a single-character separator `c`: the prefix
of `s` before the first occurrence of `c`. -/
def strFirstField (c : Char) (s : String) : String :=
  (s.toList.takeWhile (· ≠ c)).asString

/-- Constant `_SITE_PACKAGES_MARKERS` from profiler.py line 13. -/
def sitePackagesMarkers : List String := ["site-packages", "dist-packages"]

/-- Constant `_FROZEN_PREFIX` from profiler.py line 14. -/
def frozenMarker : String := "<frozen"

/-- Function `_is_external` (profiler.py lines 30-42).  `norm` stands for
`os.path.normpath` and `stdlibPaths` for the environment-computed
`_STDLIB_PATHS`; `none` is Python `None`. -/
def isExternalFn (norm : String → String) (stdlibPaths : List String)
    (filename : Option String) : Bool :=
  match filename with
  | none => true
  | some f =>
    if strStartsWith f frozenMarker || strStartsWith f "<" then true
    else
      let n := norm f
      if sitePackagesMarkers.any (fun m => strContains n m) then true
      else if stdlibPaths.any (fun sp => strStartsWith n sp) then true
      else false

/-- The classification exactly as the specification words it: the filename
is `None`, or starts with `"<"` (the `"<frozen"` case included), or its
normalized form contains a `site-packages`/`dist-packages` marker, or the
normalized form lies under one of the stdlib/platstdlib/`sys.prefix`
paths. -/
def isExternalSpec (norm : String → String) (stdlibPaths : List String)
    (filename : Option String) : Prop :=
  filename = none ∨
  (∃ f, filename = some f ∧
    (strStartsWith f "<" = true ∨
     (∃ m ∈ sitePackagesMarkers, strContains (norm f) m = true) ∨
     (∃ sp ∈ stdlibPaths, strStartsWith (norm f) sp = true)))

/-- Python truthiness of an optional string (`if module:`): `Some` of a
non-empty string. -/
def truthy : Option String → Bool
  | none => false
  | some s => s ≠ ""

/-- The path segment following the first `site-packages`/`dist-packages`
marker of `filename`, if a marker occurs: Python
`filename[idx + len(marker):].lstrip(os.sep).split(os.sep)[0].split(".")[0]`
for the first marker of `_SITE_PACKAGES_MARKERS` found (profiler.py
lines 50-54).  `sep` stands for `os.sep`. -/
def markerSegment (sep : Char) (filename : String) : Option String :=
  sitePackagesMarkers.findSome? (fun marker =>
    (strRestAfter filename marker).map (fun rest =>
      strFirstField '.' (strFirstField sep (strDropLead sep rest))))

/-- Function `_extract_library_name` (profiler.py lines 45-55). -/
def extractLibraryName (sep : Char) (filename : Option String)
    (module : Option String) : String :=
  if truthy module then strFirstField '.' (module.getD "")
  else
    match filename with
    | none => "<builtin>"
    | some f =>
      match markerSegment sep f with
      | some seg => seg
      | none => "<stdlib>"

/-- One event dict appended by `_profile_callback` (profiler.py
lines 94-107 and 116-129). -/
structure EventRecord where
  event : String
  func_name : String
  module : String
  filename : String
  lineno : Nat
  timestamp_ns : Nat
  is_external : Bool
  library_name : String
  deriving Repr, DecidableEq

/-- The data `_profile_callback` reads off a Python frame on a
`call`/`return` event: `frame.f_code.co_filename`, `co_name`,
`co_firstlineno`, and `frame.f_globals.get("__name__", "")`. -/
structure Frame where
  co_filename : String
  co_name : String
  co_firstlineno : Nat
  module : String
  deriving Repr, DecidableEq

/-- The data `_profile_callback` reads off `arg` on a
`c_call`/`c_return` event: `getattr(arg, "__name__", str(arg))` and
`getattr(arg, "__module__", "") or ""`. -/
structure CArg where
  name : String
  module : String
  deriving Repr, DecidableEq

/-- Function `_profile_callback` (profiler.py lines 81-129) as a pure function:
given the environment parameters, the enclosing wrapper's
`profiler_module` (`__name__`), the value `ts` read from
`time.perf_counter_ns()` at callback entry, the callback arguments and
the current `events` list, it returns the updated `events` list. -/
def profileCallback (norm : String → String) (stdlibPaths : List String)
    (sep : Char) (profilerModule : String) (ts : Nat)
    (frame : Frame) (event : String) (arg : CArg)
    (events : List EventRecord) : List EventRecord :=
  if event = "call" ∨ event = "return" then
    -- Skip callprofiler's own frames
    if frame.module = profilerModule then events
    else
      let isExt := isExternalFn norm stdlibPaths (some frame.co_filename)
      events ++ [{
        event := event
        func_name := frame.co_name
        module := frame.module
        filename := frame.co_filename
        lineno := frame.co_firstlineno
        timestamp_ns := ts
        is_external := isExt
        library_name :=
          if isExt then
            extractLibraryName sep (some frame.co_filename) (some frame.module)
          else "" }]
  else if event = "c_call" ∨ event = "c_return" then
    -- Skip sys.setprofile itself (called during teardown)
    if arg.name = "setprofile" then events
    else
      events ++ [{
        event := event
        func_name := arg.name
        module := arg.module
        filename := ""
        lineno := 0
        timestamp_ns := ts
        is_external := true
        library_name :=
          if arg.module ≠ "" then strFirstField '.' arg.module
          else "builtins" }]
  else events

/-- One invocation of the installed profile hook: the clock value `ts`
read by `time.perf_counter_ns()` at callback entry, and the three
callback arguments. -/
structure CallbackInvocation where
  ts : Nat
  frame : Frame
  event : String
  arg : CArg

/-- The events accumulated over one traced execution: the callback is
invoked once per runtime notification, in order, each invocation
appending to the shared `events` list (profiler.py lines 77 and 131). -/
def runCallbacks (norm : String → String) (stdlibPaths : List String)
    (sep : Char) (pm : String) (inv : List CallbackInvocation) :
    List EventRecord :=
  inv.foldl
    (fun evs i => profileCallback norm stdlibPaths sep pm i.ts i.frame
      i.event i.arg evs) []

/-- The state the wrapper manipulates: the interpreter-global profile hook
(`sys.setprofile`), and whether `process_events` was invoked and a report
file written. -/
structure WrapperState where
  profileHook : Option String
  eventsProcessed : Bool
  reportWritten : Bool
  deriving Repr, DecidableEq

/-- Python `try body finally fin`: the body produces its outcome (a normal
value or a raised exception, `Except.error`), the finaliser then runs
unconditionally, and the outcome is delivered afterwards — a normal value
is returned, an exception re-raised. -/
def tryFinally {σ E A : Type} (body : σ → Except E A × σ) (fin : σ → σ)
    (s : σ) : Except E A × σ :=
  let r := body s
  (r.1, fin r.2)

/-- The wrapper's `finally` block (profiler.py lines 134-146):
`sys.setprofile(None)`, then, only when `events` is non-empty, run
`process_events` and write the HTML report. -/
def wrapperFinalizer (events : List EventRecord) (s : WrapperState) :
    WrapperState :=
  let s := { s with profileHook := none }
  if events.isEmpty then s
  else { s with eventsProcessed := true, reportWritten := true }

/-- Function `wrapper` (profiler.py lines 76-148) as a function of the traced
function (returning a value or raising), its argument, the events the
hook accumulated, and the initial global hook state: it installs
`_profile_callback`, runs the traced function under `try/finally`, and
yields the outcome together with the final state. -/
def wrapper {E A B : Type} (func : A → Except E B) (args : A)
    (events : List EventRecord) (hook₀ : Option String) :
    Except E B × WrapperState :=
  let s : WrapperState :=
    { profileHook := hook₀, eventsProcessed := false, reportWritten := false }
  let s := { s with profileHook := some "_profile_callback" }
  tryFinally (fun s => (func args, s)) (wrapperFinalizer events) s

/-- Modelled from the spec: the warning taxonomy of the reconstruction and
aggregation engine (`callprofiler._callprofiler.process_events` is a
native extension whose source is not in this repository; §4.2/§4.3/§7 of
the specification describe it). -/
inductive EngineWarning where
  | strayReturn
  | symbolMismatch
  | truncatedFrame
  | clampedSelf
  deriving Repr, DecidableEq

/-- Modelled from the spec: a node of the reconstructed call tree (§3
`CallNode`): symbol, entry and (possibly synthetic) exit timestamps, the
truncation flag, and the ordered children. -/
inductive CallNode where
  | mk (symbol : String) (entered exited : Nat) (truncated : Bool)
       (children : List CallNode)

def CallNode.symbol : CallNode → String
  | .mk s _ _ _ _ => s

def CallNode.entered : CallNode → Nat
  | .mk _ e _ _ _ => e

def CallNode.exited : CallNode → Nat
  | .mk _ _ x _ _ => x

def CallNode.children : CallNode → List CallNode
  | .mk _ _ _ _ cs => cs

/-- Modelled from the spec: an open frame of the reconstructor's LIFO
stack (§4.2): the originating event's symbol and timestamp, and the
buffer of already-closed children. -/
structure OpenFrame where
  symbol : String
  entered : Nat
  children : List CallNode

/-- Modelled from the spec: the reconstructor's single-pass state —
stack of open frames (top first), forest of completed roots, accumulated
warnings, and the timestamp of the last observed event. -/
structure BuildState where
  stack : List OpenFrame
  forest : List CallNode
  warnings : List EngineWarning
  lastTs : Nat

/-- Modelled from the spec: one step of the reconstructor (§4.2).  A
`call`/`c_call` pushes an open frame; a `return`/`c_return` closes the
most recently opened frame regardless of symbol (a name mismatch only
records a warning), appending the closed node to the parent frame's
buffer or to the forest; a `return` on an empty stack is dropped with a
stray-return warning. -/
def buildStep (st : BuildState) (e : EventRecord) : BuildState :=
  if e.event = "call" ∨ e.event = "c_call" then
    { st with
      stack := ⟨e.func_name, e.timestamp_ns, []⟩ :: st.stack
      lastTs := e.timestamp_ns }
  else if e.event = "return" ∨ e.event = "c_return" then
    match st.stack with
    | [] =>
      { st with
        warnings := st.warnings ++ [EngineWarning.strayReturn]
        lastTs := e.timestamp_ns }
    | top :: rest =>
      let ws :=
        if top.symbol ≠ e.func_name then [EngineWarning.symbolMismatch]
        else []
      let node := CallNode.mk top.symbol top.entered e.timestamp_ns false
        top.children
      match rest with
      | [] =>
        { stack := []
          forest := st.forest ++ [node]
          warnings := st.warnings ++ ws
          lastTs := e.timestamp_ns }
      | p :: rest' =>
        { stack := { p with children := p.children ++ [node] } :: rest'
          forest := st.forest
          warnings := st.warnings ++ ws
          lastTs := e.timestamp_ns }
  else st

/-- Modelled from the spec: synthetic closure of one open frame at the
last observed timestamp, flagged truncated (§4.2, unterminated calls). -/
def closeFrame (lastTs : Nat) (f : OpenFrame) : CallNode :=
  CallNode.mk f.symbol f.entered lastTs true f.children

/-- Modelled from the spec: synthetic closure of a non-empty residual
stack, innermost frame first, each closed node transferred into its
parent's buffer; the outermost closed node is returned. -/
def closeStackNode (lastTs : Nat) (top : OpenFrame) :
    List OpenFrame → CallNode
  | [] => closeFrame lastTs top
  | p :: rest =>
    closeStackNode lastTs
      { p with children := p.children ++ [closeFrame lastTs top] } rest

/-- Modelled from the spec: `build_tree` (§4.2) — fold the events through
`buildStep`, then close any residual open frames synthetically, one
truncation warning per frame; zero events yield an empty forest and no
warnings. -/
def buildTree (events : List EventRecord) :
    List CallNode × List EngineWarning :=
  let st := events.foldl buildStep ⟨[], [], [], 0⟩
  match st.stack with
  | [] => (st.forest, st.warnings)
  | top :: rest =>
    (st.forest ++ [closeStackNode st.lastTs top rest],
     st.warnings ++ (top :: rest).map (fun _ => EngineWarning.truncatedFrame))

/-- Modelled from the spec: an aggregated node (§3/§4.3): computed
`total_time_ns` and `self_time_ns`, whether the self-time was clamped
(the recorded warning), and the aggregated children. -/
inductive AggNode where
  | mk (symbol : String) (total selfTime : Int) (clamped : Bool)
       (children : List AggNode)

def AggNode.symbol : AggNode → String
  | .mk s _ _ _ _ => s

def AggNode.total : AggNode → Int
  | .mk _ t _ _ _ => t

def AggNode.selfTime : AggNode → Int
  | .mk _ _ st _ _ => st

def AggNode.clamped : AggNode → Bool
  | .mk _ _ _ c _ => c

def AggNode.children : AggNode → List AggNode
  | .mk _ _ _ _ cs => cs

mutual

/-- Modelled from the spec: the per-node timing pass (§4.3, pass 1),
post-order — `total_time_ns = exited_at - entered_at`,
`self_time_ns = total_time_ns - Σ children.total_time_ns`, a negative
self-time clamped to zero with the clamp recorded. -/
def aggregateNode : CallNode → AggNode
  | .mk s ent ext _tr cs =>
    let acs := aggregateChildren cs
    let total : Int := (ext : Int) - (ent : Int)
    let csum : Int := (acs.map AggNode.total).sum
    let rawSelf := total - csum
    .mk s total (if rawSelf < 0 then 0 else rawSelf) (decide (rawSelf < 0))
      acs

/-- Modelled from the spec: the timing pass over an ordered children
buffer. -/
def aggregateChildren : List CallNode → List AggNode
  | [] => []
  | c :: cs => aggregateNode c :: aggregateChildren cs

end

/-- Modelled from the spec: aggregation of the whole forest. -/
def aggregateForest (forest : List CallNode) : List AggNode :=
  aggregateChildren forest

mutual

/-- All nodes of an aggregated tree, the root included. -/
def AggNode.allNodes : AggNode → List AggNode
  | .mk s t st cl cs => .mk s t st cl cs :: allNodesList cs

/-- All nodes of a list of aggregated trees. -/
def allNodesList : List AggNode → List AggNode
  | [] => []
  | c :: cs => c.allNodes ++ allNodesList cs

end

/-- The clamp warnings the aggregation pass records: one per node whose
self-time was clamped. -/
def clampWarningList (forest : List AggNode) : List EngineWarning :=
  ((allNodesList forest).filter (fun n => n.clamped)).map
    (fun _ => EngineWarning.clampedSelf)

theorem strStartsWith_of_frozen (f : String)
    (h : strStartsWith f frozenMarker = true) : strStartsWith f "<" = true := by
  simp only [strStartsWith, List.isPrefixOf_iff_prefix] at h ⊢
  have hpre : ("<".toList) <+: (frozenMarker.toList) := by decide
  exact hpre.trans h

/-- C2. The function `_is_external` returns `True` exactly in the cases the
specification enumerates: `None` filename, a `"<"`-prefixed filename
(which subsumes the `"<frozen"` prefix), a normalized form containing a
`site-packages`/`dist-packages` marker, or a normalized form under one of
the stdlib paths; it returns `False` otherwise.  Being a pure function of
`(norm, stdlibPaths, filename)`, two calls on the same filename agree. -/
theorem c2_is_external_characterisation (norm : String → String)
    (stdlibPaths : List String) (filename : Option String) :
    isExternalFn norm stdlibPaths filename = true ↔
      isExternalSpec norm stdlibPaths filename := by
  cases filename with
  | none => simp [isExternalFn, isExternalSpec]
  | some f =>
    simp only [isExternalFn, isExternalSpec]
    constructor
    · intro h
      by_cases hlt : (strStartsWith f frozenMarker || strStartsWith f "<") = true
      · rcases Bool.or_eq_true_iff.mp hlt with hfz | hlt'
        · exact Or.inr ⟨f, rfl, Or.inl (strStartsWith_of_frozen f hfz)⟩
        · exact Or.inr ⟨f, rfl, Or.inl hlt'⟩
      · simp only [hlt, if_false] at h
        by_cases hm : sitePackagesMarkers.any (fun m => strContains (norm f) m) = true
        · rcases List.any_eq_true.mp hm with ⟨m, hmem, hc⟩
          exact Or.inr ⟨f, rfl, Or.inr (Or.inl ⟨m, hmem, hc⟩)⟩
        · simp only [hm, if_false] at h
          by_cases hs : stdlibPaths.any (fun sp => strStartsWith (norm f) sp) = true
          · rcases List.any_eq_true.mp hs with ⟨sp, hmem, hc⟩
            exact Or.inr ⟨f, rfl, Or.inr (Or.inr ⟨sp, hmem, hc⟩)⟩
          · simp [hm, hs] at h
    · rintro (hno | ⟨g, hg, hcase⟩)
      · exact absurd hno (by simp)
      · injection hg with hgf
        subst hgf
        rcases hcase with hlt | ⟨m, hmem, hc⟩ | ⟨sp, hmem, hc⟩
        · simp [hlt]
        · by_cases hlt : (strStartsWith f frozenMarker || strStartsWith f "<") = true
          · simp [hlt]
          · have : sitePackagesMarkers.any (fun m => strContains (norm f) m) = true :=
              List.any_eq_true.mpr ⟨m, hmem, hc⟩
            simp [hlt, this]
        · by_cases hlt : (strStartsWith f frozenMarker || strStartsWith f "<") = true
          · simp [hlt]
          · by_cases hm : sitePackagesMarkers.any (fun m => strContains (norm f) m) = true
            · simp [hlt, hm]
            · have : stdlibPaths.any (fun sp => strStartsWith (norm f) sp) = true :=
                List.any_eq_true.mpr ⟨sp, hmem, hc⟩
              simp [hlt, hm, this]

/-- The callback only ever appends to the tail of the event list: the
records it adds do not depend on the records already present. -/
theorem profileCallback_append (norm : String → String)
    (stdlibPaths : List String) (sep : Char) (pm : String) (ts : Nat)
    (frame : Frame) (event : String) (arg : CArg)
    (events : List EventRecord) :
    profileCallback norm stdlibPaths sep pm ts frame event arg events =
      events ++ profileCallback norm stdlibPaths sep pm ts frame event arg [] := by
  unfold profileCallback
  split
  · split <;> simp
  · split
    · split <;> simp
    · simp

/-- Shape of a freshly appended record: it came from one of the two
appending branches, with `event` and `timestamp_ns` copied from the
callback arguments. -/
theorem mem_profileCallback_nil (norm : String → String)
    (stdlibPaths : List String) (sep : Char) (pm : String) (ts : Nat)
    (frame : Frame) (event : String) (arg : CArg) (r : EventRecord)
    (hr : r ∈ profileCallback norm stdlibPaths sep pm ts frame event arg []) :
    r.event = event ∧ r.timestamp_ns = ts ∧
      ((event = "call" ∨ event = "return") ∨
       (event = "c_call" ∨ event = "c_return")) := by
  unfold profileCallback at hr
  split at hr
  next hev =>
    split at hr
    · simp at hr
    · simp only [List.nil_append, List.mem_singleton] at hr
      subst hr
      exact ⟨rfl, rfl, Or.inl hev⟩
  next =>
    split at hr
    next hev =>
      split at hr
      · simp at hr
      · simp only [List.nil_append, List.mem_singleton] at hr
        subst hr
        exact ⟨rfl, rfl, Or.inr hev⟩
    · simp at hr

/-- C5. Every record the callback appends has its `event` field equal
to one of exactly `"call"`, `"return"`, `"c_call"`, `"c_return"`. -/
theorem c5_event_kinds (norm : String → String) (stdlibPaths : List String)
    (sep : Char) (pm : String) (ts : Nat) (frame : Frame) (event : String)
    (arg : CArg) (r : EventRecord)
    (hr : r ∈ profileCallback norm stdlibPaths sep pm ts frame event arg []) :
    r.event = "call" ∨ r.event = "return" ∨
      r.event = "c_call" ∨ r.event = "c_return" := by
  obtain ⟨he, -, hev⟩ :=
    mem_profileCallback_nil norm stdlibPaths sep pm ts frame event arg r hr
  rw [he]
  rcases hev with h | h | h
  · exact h.imp id Or.inl
  · exact Or.inr (Or.inr (Or.inl h))
  · exact Or.inr (Or.inr (Or.inr h))

theorem c5_event_kinds_witness :
    ({ event := "call", func_name := "fn", module := "app",
       filename := "/app/a.py", lineno := 3, timestamp_ns := 7,
       is_external := false, library_name := "" } : EventRecord).event = "call" ∨
    ({ event := "call", func_name := "fn", module := "app",
       filename := "/app/a.py", lineno := 3, timestamp_ns := 7,
       is_external := false, library_name := "" } : EventRecord).event = "return" ∨
    ({ event := "call", func_name := "fn", module := "app",
       filename := "/app/a.py", lineno := 3, timestamp_ns := 7,
       is_external := false, library_name := "" } : EventRecord).event = "c_call" ∨
    ({ event := "call", func_name := "fn", module := "app",
       filename := "/app/a.py", lineno := 3, timestamp_ns := 7,
       is_external := false, library_name := "" } : EventRecord).event = "c_return" :=
  c5_event_kinds id [] '/' "pm" 7 ⟨"/app/a.py", "fn", 3, "app"⟩
    "call" ⟨"", ""⟩ _ (by decide)

/-- C6. Native (`c_call`/`c_return`) records carry no source location:
`filename` is `""` and `lineno` is `0`; Python `call`/`return` records
carry the frame's code filename and first line number. -/
theorem c6_source_location (norm : String → String)
    (stdlibPaths : List String) (sep : Char) (pm : String) (ts : Nat)
    (frame : Frame) (event : String) (arg : CArg) (r : EventRecord)
    (hr : r ∈ profileCallback norm stdlibPaths sep pm ts frame event arg []) :
    ((r.event = "c_call" ∨ r.event = "c_return") →
      r.filename = "" ∧ r.lineno = 0) ∧
    ((r.event = "call" ∨ r.event = "return") →
      r.filename = frame.co_filename ∧ r.lineno = frame.co_firstlineno) := by
  unfold profileCallback at hr
  split at hr
  next hev =>
    split at hr
    · simp at hr
    · simp only [List.nil_append, List.mem_singleton] at hr
      subst hr
      refine ⟨fun hc => absurd hc ?_, fun _ => ⟨rfl, rfl⟩⟩
      rcases hev with h | h <;> simp [h]
  next =>
    split at hr
    next hev =>
      split at hr
      · simp at hr
      · simp only [List.nil_append, List.mem_singleton] at hr
        subst hr
        refine ⟨fun _ => ⟨rfl, rfl⟩, fun hc => absurd hc ?_⟩
        rcases hev with h | h <;> simp [h]
    · simp at hr

theorem c6_source_location_witness :
    ((({ event := "c_call", func_name := "len", module := "builtins",
         filename := "", lineno := 0, timestamp_ns := 9,
         is_external := true, library_name := "builtins" } :
        EventRecord).event = "c_call" ∨
      ({ event := "c_call", func_name := "len", module := "builtins",
         filename := "", lineno := 0, timestamp_ns := 9,
         is_external := true, library_name := "builtins" } :
        EventRecord).event = "c_return") →
      ({ event := "c_call", func_name := "len", module := "builtins",
         filename := "", lineno := 0, timestamp_ns := 9,
         is_external := true, library_name := "builtins" } :
        EventRecord).filename = "" ∧
      ({ event := "c_call", func_name := "len", module := "builtins",
         filename := "", lineno := 0, timestamp_ns := 9,
         is_external := true, library_name := "builtins" } :
        EventRecord).lineno = 0) ∧
    ((({ event := "c_call", func_name := "len", module := "builtins",
         filename := "", lineno := 0, timestamp_ns := 9,
         is_external := true, library_name := "builtins" } :
        EventRecord).event = "call" ∨
      ({ event := "c_call", func_name := "len", module := "builtins",
         filename := "", lineno := 0, timestamp_ns := 9,
         is_external := true, library_name := "builtins" } :
        EventRecord).event = "return") →
      ({ event := "c_call", func_name := "len", module := "builtins",
         filename := "", lineno := 0, timestamp_ns := 9,
         is_external := true, library_name := "builtins" } :
        EventRecord).filename = (⟨"x.py", "f", 1, "m"⟩ : Frame).co_filename ∧
      ({ event := "c_call", func_name := "len", module := "builtins",
         filename := "", lineno := 0, timestamp_ns := 9,
         is_external := true, library_name := "builtins" } :
        EventRecord).lineno = (⟨"x.py", "f", 1, "m"⟩ : Frame).co_firstlineno) :=
  c6_source_location id [] '/' "pm" 9 ⟨"x.py", "f", 1, "m"⟩ "c_call"
    ⟨"len", "builtins"⟩ _ (by decide)

/-- C9, counterexample. The claim as stated is false: only the Python
`call`/`return` branch checks the module against the profiler's own
`__name__`.  A native `c_call` whose callable reports
`__module__ == "callprofiler.profiler"` is appended with `module` equal
to the profiler module. -/
theorem c9_counterexample :
    (profileCallback id [] '/' "callprofiler.profiler" 5 ⟨"", "", 0, ""⟩
        "c_call" ⟨"foo", "callprofiler.profiler"⟩ []).map
      EventRecord.module = ["callprofiler.profiler"] := by decide

/-- C9, amended. The callback records none of the profiler's own
*Python* frames: no `call`/`return` record has `module` equal to the
profiler module's `__name__`, and no native `c_call`/`c_return` record is
appended for a callee named `"setprofile"`; for such frames the callback
leaves the event list unchanged.  (The module check does not extend to
native records.) -/
theorem c9_skip_own_frames (norm : String → String)
    (stdlibPaths : List String) (sep : Char) (pm : String) (ts : Nat)
    (frame : Frame) (event : String) (arg : CArg) (r : EventRecord)
    (hr : r ∈ profileCallback norm stdlibPaths sep pm ts frame event arg []) :
    ((r.event = "call" ∨ r.event = "return") → r.module ≠ pm) ∧
    ((r.event = "c_call" ∨ r.event = "c_return") →
      r.func_name ≠ "setprofile") := by
  unfold profileCallback at hr
  split at hr
  next hev =>
    split at hr
    next hskip => simp at hr
    next hskip =>
      simp only [List.nil_append, List.mem_singleton] at hr
      subst hr
      refine ⟨fun _ => hskip, fun hc => absurd hc ?_⟩
      rcases hev with h | h <;> simp [h]
  next =>
    split at hr
    next hev =>
      split at hr
      next hskip => simp at hr
      next hskip =>
        simp only [List.nil_append, List.mem_singleton] at hr
        subst hr
        exact ⟨fun hc => by rcases hev with h | h <;> simp [h] at hc,
               fun _ => hskip⟩
    · simp at hr

theorem c9_skip_own_frames_witness :
    ((({ event := "call", func_name := "fn", module := "app",
         filename := "/app/a.py", lineno := 3, timestamp_ns := 7,
         is_external := false, library_name := "" } : EventRecord).event =
          "call" ∨
      ({ event := "call", func_name := "fn", module := "app",
         filename := "/app/a.py", lineno := 3, timestamp_ns := 7,
         is_external := false, library_name := "" } : EventRecord).event =
          "return") →
      ({ event := "call", func_name := "fn", module := "app",
         filename := "/app/a.py", lineno := 3, timestamp_ns := 7,
         is_external := false, library_name := "" } : EventRecord).module ≠
        "callprofiler.profiler") ∧
    ((({ event := "call", func_name := "fn", module := "app",
         filename := "/app/a.py", lineno := 3, timestamp_ns := 7,
         is_external := false, library_name := "" } : EventRecord).event =
          "c_call" ∨
      ({ event := "call", func_name := "fn", module := "app",
         filename := "/app/a.py", lineno := 3, timestamp_ns := 7,
         is_external := false, library_name := "" } : EventRecord).event =
          "c_return") →
      ({ event := "call", func_name := "fn", module := "app",
         filename := "/app/a.py", lineno := 3, timestamp_ns := 7,
         is_external := false, library_name := "" } : EventRecord).func_name ≠
        "setprofile") :=
  c9_skip_own_frames id [] '/' "callprofiler.profiler" 7
    ⟨"/app/a.py", "fn", 3, "app"⟩ "call" ⟨"", ""⟩ _ (by decide)

theorem asString_ne_empty (l : List Char) (h : l ≠ []) : l.asString ≠ "" := by
  intro hc
  exact h (by simpa using List.asString_eq.mp hc)

/-- If a string is non-empty and does not start with `"."`, its first
dot-separated field (Python `s.split(".")[0]`) is non-empty. -/
theorem strFirstField_dot_ne_empty (m : String) (hne : m ≠ "")
    (hst : strStartsWith m "." = false) : strFirstField '.' m ≠ "" := by
  unfold strFirstField
  cases hm : m.toList with
  | nil =>
    exact absurd (String.toList_inj.mp (by simpa using hm)) hne
  | cons a t =>
    unfold strStartsWith at hst
    rw [hm] at hst
    have ha : a ≠ '.' := by
      intro hc
      subst hc
      simp [List.isPrefixOf] at hst
    rw [List.takeWhile_cons]
    exact asString_ne_empty _ (by simp [ha])

/-- C3, counterexample. The claim as stated is false: a Python `call`
event for a frame whose `__name__` is `"."` and whose filename is
`"<x>"` is classified external, yet `_extract_library_name` returns
`".".split(".")[0] == ""`, so the appended record has `is_external` true
and an empty `library_name`. -/
theorem c3_counterexample :
    (profileCallback id [] '/' "pm" 5 ⟨"<x>", "fn", 1, "."⟩ "call"
        ⟨"", ""⟩ []).map (fun r => (r.is_external, r.library_name)) =
      [(true, "")] := by decide

/-- C3, amended. Every appended record has `library_name = ""` when
`is_external` is false; when `is_external` is true, `library_name` is
non-empty *provided* the frame module and the native callee's module do
not start with `"."`, and any `site-packages`/`dist-packages` marker
segment extracted from the frame's filename is non-empty. -/
theorem c3_library_name (norm : String → String)
    (stdlibPaths : List String) (sep : Char) (pm : String) (ts : Nat)
    (frame : Frame) (event : String) (arg : CArg) (r : EventRecord)
    (hr : r ∈ profileCallback norm stdlibPaths sep pm ts frame event arg [])
    (hmod : strStartsWith frame.module "." = false)
    (hcm : strStartsWith arg.module "." = false)
    (hseg : ∀ seg, markerSegment sep frame.co_filename = some seg →
      seg ≠ "") :
    (r.is_external = false → r.library_name = "") ∧
    (r.is_external = true → r.library_name ≠ "") := by
  unfold profileCallback at hr
  split at hr
  next hev =>
    split at hr
    · simp at hr
    · simp only [List.nil_append, List.mem_singleton] at hr
      subst hr
      by_cases hext :
        isExternalFn norm stdlibPaths (some frame.co_filename) = true
      · refine ⟨fun hc => by simp [hext] at hc, fun _ => ?_⟩
        simp only [hext, if_true]
        unfold extractLibraryName
        by_cases htr : truthy (some frame.module) = true
        · simp only [htr, if_true]
          have hne : frame.module ≠ "" := by
            unfold truthy at htr
            simpa using htr
          exact strFirstField_dot_ne_empty frame.module hne hmod
        · simp only [htr]
          rw [if_neg (by simp)]
          cases hms : markerSegment sep frame.co_filename with
          | none => simp
          | some seg => exact hseg seg hms
      · have hext' : isExternalFn norm stdlibPaths (some frame.co_filename)
            = false := by simpa using hext
        refine ⟨fun _ => by simp [hext'], fun hc => by simp [hext'] at hc⟩
  next =>
    split at hr
    next hev =>
      split at hr
      · simp at hr
      · simp only [List.nil_append, List.mem_singleton] at hr
        subst hr
        refine ⟨fun hc => by simp at hc, fun _ => ?_⟩
        by_cases hm : arg.module = ""
        · simp [hm]
        · simp only [ne_eq, hm, not_false_iff, if_true]
          exact strFirstField_dot_ne_empty arg.module hm hcm
    · simp at hr

theorem c3_library_name_witness :
    (({ event := "call", func_name := "fn", module := "numpy.core",
        filename := "/v/site-packages/numpy/core.py", lineno := 3,
        timestamp_ns := 7, is_external := true, library_name := "numpy" } :
        EventRecord).is_external = false →
      ({ event := "call", func_name := "fn", module := "numpy.core",
         filename := "/v/site-packages/numpy/core.py", lineno := 3,
         timestamp_ns := 7, is_external := true, library_name := "numpy" } :
        EventRecord).library_name = "") ∧
    (({ event := "call", func_name := "fn", module := "numpy.core",
        filename := "/v/site-packages/numpy/core.py", lineno := 3,
        timestamp_ns := 7, is_external := true, library_name := "numpy" } :
        EventRecord).is_external = true →
      ({ event := "call", func_name := "fn", module := "numpy.core",
         filename := "/v/site-packages/numpy/core.py", lineno := 3,
         timestamp_ns := 7, is_external := true, library_name := "numpy" } :
        EventRecord).library_name ≠ "") :=
  c3_library_name id [] '/' "pm" 7
    ⟨"/v/site-packages/numpy/core.py", "fn", 3, "numpy.core"⟩ "call"
    ⟨"", ""⟩ _ (by decide) (by decide) (by decide)
    (by intro seg hms hc; rw [show markerSegment '/'
          "/v/site-packages/numpy/core.py" = some "numpy" from rfl] at hms;
        cases hms; exact absurd hc (by decide))

/-- C1. Whatever the traced function does — return a value or raise —
the wrapper's `finally` block runs `sys.setprofile(None)`, so after the
wrapper finishes the global profile hook is uninstalled; no hook state
outlives the traced call. -/
theorem c1_hook_uninstalled {E A B : Type} (func : A → Except E B)
    (args : A) (events : List EventRecord) (hook₀ : Option String) :
    (wrapper func args events hook₀).2.profileHook = none := by
  unfold wrapper tryFinally wrapperFinalizer
  by_cases h : events.isEmpty <;> simp [h]

/-- C10. The decorator is observationally transparent: the wrapper
hands the traced function its arguments unchanged and delivers exactly
its outcome — the returned value on success, the same raised exception on
failure — after the `finally` block has run. -/
theorem c10_transparent {E A B : Type} (func : A → Except E B) (args : A)
    (events : List EventRecord) (hook₀ : Option String) :
    (wrapper func args events hook₀).1 = func args := rfl

/-- C8. Zero events are not an error: `build_tree` of an empty event
sequence is an empty forest with no warnings, and a wrapper whose trace
captured no events calls no event processing, writes no report, and still
returns the traced function's outcome. -/
theorem c8_zero_events {E A B : Type} (func : A → Except E B) (args : A)
    (hook₀ : Option String) :
    buildTree [] = ([], []) ∧
    (wrapper func args [] hook₀).2.eventsProcessed = false ∧
    (wrapper func args [] hook₀).2.reportWritten = false ∧
    (wrapper func args [] hook₀).1 = func args :=
  ⟨rfl, rfl, rfl, rfl⟩

/-- A single callback invocation appends either nothing or exactly one
record. -/
theorem profileCallback_nil_cases (norm : String → String)
    (stdlibPaths : List String) (sep : Char) (pm : String) (ts : Nat)
    (frame : Frame) (event : String) (arg : CArg) :
    profileCallback norm stdlibPaths sep pm ts frame event arg [] = [] ∨
    ∃ r, profileCallback norm stdlibPaths sep pm ts frame event arg []
      = [r] := by
  unfold profileCallback
  split
  · split
    · exact Or.inl rfl
    · exact Or.inr ⟨_, rfl⟩
  · split
    · split
      · exact Or.inl rfl
      · exact Or.inr ⟨_, rfl⟩
    · exact Or.inl rfl

/-- Invariant-carrying fold for C7: if the accumulated records are sorted
by timestamp and all of them precede every upcoming clock reading, and
the upcoming readings are themselves sorted, then the fully folded event
list is sorted by timestamp. -/
theorem runCallbacksAux (norm : String → String)
    (stdlibPaths : List String) (sep : Char) (pm : String) :
    ∀ (inv : List CallbackInvocation) (evs : List EventRecord),
      List.Pairwise (· ≤ ·) (evs.map EventRecord.timestamp_ns) →
      (∀ e ∈ evs, ∀ i ∈ inv, e.timestamp_ns ≤ i.ts) →
      List.Pairwise (· ≤ ·) (inv.map CallbackInvocation.ts) →
      List.Pairwise (· ≤ ·)
        ((inv.foldl
          (fun evs i => profileCallback norm stdlibPaths sep pm i.ts
            i.frame i.event i.arg evs) evs).map EventRecord.timestamp_ns)
  | [], evs, hp, _, _ => by simpa using hp
  | i :: rest, evs, hp, hb, hinv => by
    rw [List.foldl_cons]
    have hcons : (∀ j ∈ rest, i.ts ≤ j.ts) ∧
        List.Pairwise (· ≤ ·) (rest.map CallbackInvocation.ts) := by
      simpa using hinv
    apply runCallbacksAux norm stdlibPaths sep pm rest
    · rw [profileCallback_append, List.map_append, List.pairwise_append]
      refine ⟨hp, ?_, ?_⟩
      · rcases profileCallback_nil_cases norm stdlibPaths sep pm i.ts
            i.frame i.event i.arg with h | ⟨r, h⟩ <;> simp [h]
      · intro a ha b hbm
        obtain ⟨e, he, rfl⟩ := List.mem_map.mp ha
        obtain ⟨r, hr, rfl⟩ := List.mem_map.mp hbm
        have hre := (mem_profileCallback_nil norm stdlibPaths sep pm i.ts
          i.frame i.event i.arg r hr).2.1
        rw [hre]
        exact hb e he i (List.mem_cons_self i rest)
    · intro e he j hj
      rw [profileCallback_append] at he
      rcases List.mem_append.mp he with he' | he'
      · exact hb e he' j (List.mem_cons_of_mem i hj)
      · have hre := (mem_profileCallback_nil norm stdlibPaths sep pm i.ts
          i.frame i.event i.arg e he').2.1
        rw [hre]
        exact hcons.1 j hj
    · exact hcons.2

/-- C7. If the per-trace clock readings are non-decreasing across the
callback invocations of one traced execution (the per-trace monotone
clock), then the accumulated event records are ordered non-decreasingly
by `timestamp_ns`: each record's timestamp is the single clock value read
at its callback's entry, and records are appended in invocation order. -/
theorem c7_timestamps_monotone (norm : String → String)
    (stdlibPaths : List String) (sep : Char) (pm : String)
    (inv : List CallbackInvocation)
    (h : List.Pairwise (· ≤ ·) (inv.map CallbackInvocation.ts)) :
    List.Pairwise (· ≤ ·)
      ((runCallbacks norm stdlibPaths sep pm inv).map
        EventRecord.timestamp_ns) := by
  unfold runCallbacks
  exact runCallbacksAux norm stdlibPaths sep pm inv []
    (by simp) (by simp) h

theorem c7_timestamps_monotone_witness :
    List.Pairwise (· ≤ ·)
      ((runCallbacks id [] '/' "pm"
        [⟨3, ⟨"a.py", "f", 1, "m"⟩, "call", ⟨"", ""⟩⟩,
         ⟨5, ⟨"a.py", "f", 1, "m"⟩, "return", ⟨"", ""⟩⟩]).map
        EventRecord.timestamp_ns) :=
  c7_timestamps_monotone id [] '/' "pm"
    [⟨3, ⟨"a.py", "f", 1, "m"⟩, "call", ⟨"", ""⟩⟩,
     ⟨5, ⟨"a.py", "f", 1, "m"⟩, "return", ⟨"", ""⟩⟩] (by decide)

theorem mem_allNodesList : ∀ (l : List AggNode) (n : AggNode),
    n ∈ allNodesList l → ∃ c ∈ l, n ∈ c.allNodes
  | [], n, h => by simp [allNodesList] at h
  | c :: cs, n, h => by
    simp only [allNodesList] at h
    rcases List.mem_append.mp h with h' | h'
    · exact ⟨c, List.mem_cons_self c cs, h'⟩
    · obtain ⟨c', hc', hn⟩ := mem_allNodesList cs n h'
      exact ⟨c', List.mem_cons_of_mem c hc', hn⟩

theorem aggregateChildren_eq_map : ∀ (cs : List CallNode),
    aggregateChildren cs = cs.map aggregateNode
  | [] => by simp [aggregateChildren]
  | c :: cs => by
    simp [aggregateChildren, aggregateChildren_eq_map cs]

theorem sizeOf_lt_of_mem_children {c : CallNode} {s : String}
    {ent ext : Nat} {tr : Bool} {cs : List CallNode} (h : c ∈ cs) :
    sizeOf c < sizeOf (CallNode.mk s ent ext tr cs) := by
  have hm := List.sizeOf_lt_of_mem h
  simp only [CallNode.mk.sizeOf_spec]
  omega

/-- Every node of an aggregated tree satisfies the timing invariants: the
self-time is non-negative; when no clamp occurred the total time is the
self-time plus the children's totals; when a clamp occurred the self-time
is zero. -/
theorem aggregateNode_sound : ∀ (c : CallNode),
    ∀ n ∈ (aggregateNode c).allNodes,
      0 ≤ n.selfTime ∧
      (n.clamped = false →
        n.total = n.selfTime + (n.children.map AggNode.total).sum) ∧
      (n.clamped = true → n.selfTime = 0)
  | .mk s ent ext tr cs => by
    intro n hn
    simp only [aggregateNode, AggNode.allNodes] at hn
    rcases List.mem_cons.mp hn with rfl | hmem
    · constructor
      · by_cases hraw :
          (ext : Int) - (ent : Int) -
            ((aggregateChildren cs).map AggNode.total).sum < 0
        · simp [AggNode.selfTime, hraw]
        · simp only [AggNode.selfTime, if_neg hraw]
          omega
      · constructor
        · intro hcl
          simp only [AggNode.clamped, decide_eq_false_iff_not, not_lt] at hcl
          simp only [AggNode.total, AggNode.selfTime, AggNode.children,
            if_neg (not_lt.mpr hcl)]
          ring
        · intro hcl
          simp only [AggNode.clamped, decide_eq_true_eq] at hcl
          simp [AggNode.selfTime, hcl]
    · obtain ⟨a, ha, hna⟩ := mem_allNodesList _ n hmem
      rw [aggregateChildren_eq_map] at ha
      obtain ⟨c', hc', rfl⟩ := List.mem_map.mp ha
      exact aggregateNode_sound c' n hna
  termination_by c => sizeOf c
  decreasing_by exact sizeOf_lt_of_mem_children hc'

/-- C4, counterexample. On the event sequence
`[Call A @0, Call B @0, Return B @20, Return A @10]` (timestamps out of
order, exactly the degraded capture the specification says must still be
processed), node `A` gets `total = 10` but children's totals sum to `20`;
the self-time is clamped to `0`, so `total ≠ self + Σ children.total`:
the round-trip equation and the clamping rule cannot both hold
unconditionally. -/
theorem c4_counterexample :
    ((allNodesList (aggregateForest (buildTree
      [⟨"call", "A", "m", "a.py", 1, 0, false, ""⟩,
       ⟨"call", "B", "m", "a.py", 2, 0, false, ""⟩,
       ⟨"return", "B", "m", "a.py", 2, 20, false, ""⟩,
       ⟨"return", "A", "m", "a.py", 1, 10, false, ""⟩]).1)).map
      (fun n => (n.total, n.selfTime, (n.children.map AggNode.total).sum))
      = [(10, 0, 20), (20, 20, 0)]) ∧
    ¬ ((10 : Int) = 0 + 20) := by
  constructor
  · rfl
  · decide

/-- C4, amended. For every node of the aggregated call tree:
`self_time_ns` is never negative; `total_time_ns` equals `self_time_ns`
plus the sum of the children's `total_time_ns` at every node where no
clamping occurred; and where the intermediate self-time was negative it
is clamped to zero with a `clampedSelf` warning recorded rather than an
error being raised. -/
theorem c4_node_timing (events : List EventRecord) (n : AggNode)
    (hn : n ∈ allNodesList (aggregateForest (buildTree events).1)) :
    0 ≤ n.selfTime ∧
    (n.clamped = false →
      n.total = n.selfTime + (n.children.map AggNode.total).sum) ∧
    (n.clamped = true → n.selfTime = 0 ∧
      EngineWarning.clampedSelf ∈
        clampWarningList (aggregateForest (buildTree events).1)) := by
  obtain ⟨c, hc, hnc⟩ := mem_allNodesList _ n hn
  rw [show aggregateForest (buildTree events).1
      = aggregateChildren (buildTree events).1 from rfl,
    aggregateChildren_eq_map] at hc
  obtain ⟨c', -, rfl⟩ := List.mem_map.mp hc
  obtain ⟨h1, h2, h3⟩ := aggregateNode_sound c' n hnc
  refine ⟨h1, h2, fun hcl => ⟨h3 hcl, ?_⟩⟩
  unfold clampWarningList
  exact List.mem_map.mpr ⟨n, List.mem_filter.mpr ⟨hn, by simp [hcl]⟩, rfl⟩

theorem c4_node_timing_witness :
    (0 : Int) ≤
      (AggNode.mk "A" 50 30 false [AggNode.mk "B" 20 20 false []]).selfTime ∧
    ((AggNode.mk "A" 50 30 false
        [AggNode.mk "B" 20 20 false []]).clamped = false →
      (AggNode.mk "A" 50 30 false [AggNode.mk "B" 20 20 false []]).total =
        (AggNode.mk "A" 50 30 false
          [AggNode.mk "B" 20 20 false []]).selfTime +
        (((AggNode.mk "A" 50 30 false
          [AggNode.mk "B" 20 20 false []]).children.map
            AggNode.total).sum)) ∧
    ((AggNode.mk "A" 50 30 false
        [AggNode.mk "B" 20 20 false []]).clamped = true →
      (AggNode.mk "A" 50 30 false
        [AggNode.mk "B" 20 20 false []]).selfTime = 0 ∧
      EngineWarning.clampedSelf ∈
        clampWarningList (aggregateForest (buildTree
          [⟨"call", "A", "m", "a.py", 1, 0, false, ""⟩,
           ⟨"call", "B", "m", "a.py", 2, 10, false, ""⟩,
           ⟨"return", "B", "m", "a.py", 2, 30, false, ""⟩,
           ⟨"return", "A", "m", "a.py", 1, 50, false, ""⟩]).1)) :=
  c4_node_timing
    [⟨"call", "A", "m", "a.py", 1, 0, false, ""⟩,
     ⟨"call", "B", "m", "a.py", 2, 10, false, ""⟩,
     ⟨"return", "B", "m", "a.py", 2, 30, false, ""⟩,
     ⟨"return", "A", "m", "a.py", 1, 50, false, ""⟩]
    (AggNode.mk "A" 50 30 false [AggNode.mk "B" 20 20 false []])
    (by rw [show allNodesList (aggregateForest (buildTree
          [⟨"call", "A", "m", "a.py", 1, 0, false, ""⟩,
           ⟨"call", "B", "m", "a.py", 2, 10, false, ""⟩,
           ⟨"return", "B", "m", "a.py", 2, 30, false, ""⟩,
           ⟨"return", "A", "m", "a.py", 1, 50, false, ""⟩]).1)
        = [AggNode.mk "A" 50 30 false [AggNode.mk "B" 20 20 false []],
           AggNode.mk "B" 20 20 false []] from rfl]
        exact List.mem_cons_self _ _)

end CallProfiler
